import Mathlib

/-!
# Verification of the phew-read persistence and domain-logic core

Shallow embedding of the TypeScript sources of the phew-read reading app:

* `src/services/database.ts` — the store (books / subscription rows, the
  genreTags and features JSON-text columns, boolean-as-integer columns);
* `src/services/fileService.ts` — genre inference and author extraction;
* `src/services/aiService.ts` — the subscription gate in front of the AI call;
* `src/app/reader/[id].tsx` — word-count pagination and page navigation;
* `src/services/recommendationService.ts` — genre tallying and catalog ranking.

JavaScript strings are modelled as lists of UTF-16 code units (`List Nat`)
where the JSON codec is concerned, and as Lean `String`/`List Char` where only
case-insensitive comparison and substring search matter.
-/

namespace PhewRead

/-! ## JSON string-array codec

`database.ts` stores `genreTags` (books) and `features` (subscription) with
`JSON.stringify : string[] -> string` and reads them back with `JSON.parse`.
The two functions below model exactly that pair on arrays of strings, with
strings as lists of code units. -/

/-- Lowercase hexadecimal digit, as produced by `JSON.stringify` in the
`\u00XX` escapes of control characters. -/
def toHexDigit (n : Nat) : Nat := if n < 10 then 48 + n else 87 + n

/-- Reading one hexadecimal digit, as `JSON.parse` does inside a `\uXXXX`
escape (digits, lowercase and uppercase letters). -/
def fromHexDigit (n : Nat) : Option Nat :=
  if 48 ≤ n ∧ n ≤ 57 then some (n - 48)
  else if 97 ≤ n ∧ n ≤ 102 then some (n - 87)
  else if 65 ≤ n ∧ n ≤ 70 then some (n - 55)
  else none

/-- Model of `JSON.stringify` escaping of a single code unit inside a string literal:
quote and backslash get a backslash escape, the named control characters get
`\b \t \n \f \r`, the remaining control characters get `\u00XX`, and
everything else is emitted literally. -/
def quoteChar (n : Nat) : List Nat :=
  if n = 34 then [92, 34]
  else if n = 92 then [92, 92]
  else if n = 8 then [92, 98]
  else if n = 9 then [92, 116]
  else if n = 10 then [92, 110]
  else if n = 12 then [92, 102]
  else if n = 13 then [92, 114]
  else if n < 32 then [92, 117, 48, 48, toHexDigit (n / 16), toHexDigit (n % 16)]
  else [n]

/-- A JSON string literal: `"` ++ escaped body ++ `"`. -/
def encodeStringJson (s : List Nat) : List Nat :=
  34 :: s.flatMap quoteChar ++ [34]

/-- The comma-separated element list of `JSON.stringify` on an array. -/
def encodeElems : List (List Nat) → List Nat
  | [] => []
  | [s] => encodeStringJson s
  | s :: rest => encodeStringJson s ++ 44 :: encodeElems rest

/-- Model of `JSON.stringify` on an array of strings: `[` ++ elements ++ `]`;
the empty array becomes the literal `[]`. -/
def encodeArr (g : List (List Nat)) : List Nat :=
  91 :: encodeElems g ++ [93]

/-- Model of `JSON.parse` inside a string literal, after the opening quote: consume
code units up to the closing quote, decoding the backslash escapes; raw
control characters are rejected, as in JSON. Returns the decoded string and
the unconsumed remainder. -/
def parseStrAux : List Nat → Option (List Nat × List Nat)
  | [] => none
  | c :: rest =>
    if c = 34 then some ([], rest)
    else if c = 92 then
      match rest with
      | [] => none
      | e :: rest2 =>
        if e = 34 then (parseStrAux rest2).map fun p => (34 :: p.1, p.2)
        else if e = 92 then (parseStrAux rest2).map fun p => (92 :: p.1, p.2)
        else if e = 47 then (parseStrAux rest2).map fun p => (47 :: p.1, p.2)
        else if e = 98 then (parseStrAux rest2).map fun p => (8 :: p.1, p.2)
        else if e = 116 then (parseStrAux rest2).map fun p => (9 :: p.1, p.2)
        else if e = 110 then (parseStrAux rest2).map fun p => (10 :: p.1, p.2)
        else if e = 102 then (parseStrAux rest2).map fun p => (12 :: p.1, p.2)
        else if e = 114 then (parseStrAux rest2).map fun p => (13 :: p.1, p.2)
        else if e = 117 then
          match rest2 with
          | h1 :: h2 :: h3 :: h4 :: rest3 =>
            match fromHexDigit h1, fromHexDigit h2, fromHexDigit h3, fromHexDigit h4 with
            | some a, some b, some c2, some d =>
              (parseStrAux rest3).map fun p => ((((a * 16 + b) * 16 + c2) * 16 + d) :: p.1, p.2)
            | _, _, _, _ => none
          | _ => none
        else none
    else if c < 32 then none
    else (parseStrAux rest).map fun p => (c :: p.1, p.2)

/-- Model of `JSON.parse` on the element list of a non-empty array of strings (the
position right after `[` or after a separating comma): a string literal
followed by `,` (more elements) or `]` (end). Fuelled recursion; the fuel is
an upper bound on the number of elements. -/
def parseElemsAux : Nat → List Nat → Option (List (List Nat) × List Nat)
  | 0, _ => none
  | _ + 1, [] => none
  | fuel + 1, c :: rest =>
    if c = 34 then
      match parseStrAux rest with
      | some (s, c2 :: rest3) =>
        if c2 = 44 then (parseElemsAux fuel rest3).map fun p => (s :: p.1, p.2)
        else if c2 = 93 then some ([s], rest3)
        else none
      | _ => none
    else none

/-- Model of `JSON.parse` of a whole text that is expected to be an array of strings
(entire input consumed). This models `JSON.parse` on the texts the store
writes, which contain no insignificant whitespace. -/
def parseArr (cs : List Nat) : Option (List (List Nat)) :=
  match cs with
  | c :: rest =>
    if c = 91 then
      if rest = [93] then some []
      else
        match parseElemsAux cs.length rest with
        | some (g, []) => some g
        | _ => none
    else none
  | [] => none

theorem fromHexDigit_toHexDigit {d : Nat} (h : d < 16) :
    fromHexDigit (toHexDigit d) = some d := by
  unfold toHexDigit fromHexDigit
  split_ifs <;> first
    | (congr 1; omega)
    | omega

theorem parseStrAux_quoted (s rest : List Nat) :
    parseStrAux (s.flatMap quoteChar ++ 34 :: rest) = some (s, rest) := by
  induction s with
  | nil =>
    rw [parseStrAux.eq_def]
    simp
  | cons n s ih =>
    rw [List.flatMap_cons, List.append_assoc]
    by_cases h34 : n = 34
    · subst h34; rw [parseStrAux.eq_def]; simp [quoteChar, ih]
    · by_cases h92 : n = 92
      · subst h92; rw [parseStrAux.eq_def]; simp [quoteChar, ih]
      · by_cases h8 : n = 8
        · subst h8; rw [parseStrAux.eq_def]; simp [quoteChar, ih]
        · by_cases h9 : n = 9
          · subst h9; rw [parseStrAux.eq_def]; simp [quoteChar, ih]
          · by_cases h10 : n = 10
            · subst h10; rw [parseStrAux.eq_def]; simp [quoteChar, ih]
            · by_cases h12 : n = 12
              · subst h12; rw [parseStrAux.eq_def]; simp [quoteChar, ih]
              · by_cases h13 : n = 13
                · subst h13; rw [parseStrAux.eq_def]; simp [quoteChar, ih]
                · by_cases hlt : n < 32
                  · have e1 : fromHexDigit (toHexDigit (n / 16)) = some (n / 16) :=
                      fromHexDigit_toHexDigit (by omega)
                    have e2 : fromHexDigit (toHexDigit (n % 16)) = some (n % 16) :=
                      fromHexDigit_toHexDigit (by omega)
                    have e0 : fromHexDigit 48 = some 0 := by decide
                    have harith : ((0 * 16 + 0) * 16 + n / 16) * 16 + n % 16 = n := by omega
                    rw [show quoteChar n =
                        [92, 117, 48, 48, toHexDigit (n / 16), toHexDigit (n % 16)] by
                      simp [quoteChar, h34, h92, h8, h9, h10, h12, h13, hlt]]
                    rw [parseStrAux.eq_def]
                    simp [e0, e1, e2, ih]
                    omega
                  · rw [show quoteChar n = [n] by
                      simp [quoteChar, h34, h92, h8, h9, h10, h12, h13, hlt]]
                    rw [parseStrAux.eq_def]
                    simp [h34, h92, hlt, ih]

theorem length_le_length_encodeElems (g : List (List Nat)) :
    g.length ≤ (encodeElems g).length := by
  induction g with
  | nil => simp [encodeElems]
  | cons s t ih =>
    cases t with
    | nil => simp [encodeElems, encodeStringJson]
    | cons s2 t2 =>
      simp [encodeElems, encodeStringJson] at ih ⊢
      omega

theorem parseElemsAux_encoded (g : List (List Nat)) :
    ∀ (fuel : Nat) (rest' : List Nat), g ≠ [] → g.length ≤ fuel →
      parseElemsAux fuel (encodeElems g ++ 93 :: rest') = some (g, rest') := by
  induction g with
  | nil => intro fuel rest' hne _; exact absurd rfl hne
  | cons s t ih =>
    intro fuel rest' _ hlen
    cases fuel with
    | zero => simp at hlen
    | succ f =>
      cases t with
      | nil =>
        rw [parseElemsAux.eq_def]
        simp [encodeElems, encodeStringJson, parseStrAux_quoted]
      | cons s2 t2 =>
        rw [parseElemsAux.eq_def]
        have hih : parseElemsAux f (encodeElems (s2 :: t2) ++ 93 :: rest') =
            some (s2 :: t2, rest') := by
          apply ih
          · simp
          · simp at hlen ⊢; omega
        simp [encodeElems, encodeStringJson, parseStrAux_quoted, hih]

/-- Round trip: `JSON.parse ∘ JSON.stringify` is the identity on arrays of strings:
the round-trip property of the `genreTags` / `features` text encoding. -/
theorem parseArr_encodeArr (g : List (List Nat)) : parseArr (encodeArr g) = some g := by
  cases g with
  | nil => decide
  | cons s t =>
    have hne : encodeElems (s :: t) ++ [93] ≠ [93] := by
      cases t <;> simp [encodeElems, encodeStringJson]
    have hb := length_le_length_encodeElems (s :: t)
    have hmain := parseElemsAux_encoded (s :: t)
      (91 :: encodeElems (s :: t) ++ [93]).length [] (by simp) (by simp at hb ⊢; omega)
    rw [encodeArr, parseArr.eq_def]
    simp only [hne, if_neg, if_pos, List.length_cons, List.length_append]
    have hmain2 : parseElemsAux ((encodeElems (s :: t)).length + 1 + 1)
        (encodeElems (s :: t) ++ [93]) = some (s :: t, []) := by simpa using hmain
    simp [hne, hmain2]

/-! ## The store (`src/services/database.ts`)

A `books` row as SQLite holds it: `genreTags` is a nullable TEXT column
(the JSON-encoded array, as code units), `isCompleted` / `isFavorite` are
INTEGER columns, `price` is a nullable REAL column (modelled as `Rat`;
no arithmetic is ever performed on it). -/

structure BookRow where
  id : String
  title : String
  author : Option String
  filePath : String
  coverImage : Option String
  lastPageRead : Nat
  totalPages : Nat
  categoryId : Option String
  genreTags : Option (List Nat)
  fileType : String
  isCompleted : Nat
  isFavorite : Nat
  source : String
  price : Option Rat
  affiliateUrl : Option String
  createdAt : String
  updatedAt : String
deriving DecidableEq

/-- A decoded `Book` as the read methods return it: `genreTags` parsed into a
string array, the two flags converted to booleans. -/
structure Book where
  id : String
  title : String
  author : Option String
  filePath : String
  coverImage : Option String
  lastPageRead : Nat
  totalPages : Nat
  categoryId : Option String
  genreTags : List (List Nat)
  fileType : String
  isCompleted : Bool
  isFavorite : Bool
  source : String
  price : Option Rat
  affiliateUrl : Option String
  createdAt : String
  updatedAt : String
deriving DecidableEq

/-- The read-path decoding of the `genreTags` column:
`result.genreTags ? JSON.parse(result.genreTags) : []` — a NULL column and
(by JavaScript falsiness) an empty text both decode to the empty array
without invoking the parser; `none` as result models a `JSON.parse` throw. -/
def decodeTags : Option (List Nat) → Option (List (List Nat))
  | none => some []
  | some cs => if cs = [] then some [] else parseArr cs

/-- Row decoding shared by `getAllBooks` / `getBooksByCategory` /
`getBookById`: spread the row, decode `genreTags`, and apply `Boolean` to the
two integer flags (`0 → false`, nonzero → `true`). -/
def decodeBookRow (r : BookRow) : Option Book :=
  (decodeTags r.genreTags).map fun gt =>
    { id := r.id, title := r.title, author := r.author, filePath := r.filePath,
      coverImage := r.coverImage, lastPageRead := r.lastPageRead,
      totalPages := r.totalPages, categoryId := r.categoryId, genreTags := gt,
      fileType := r.fileType, isCompleted := r.isCompleted != 0,
      isFavorite := r.isFavorite != 0, source := r.source, price := r.price,
      affiliateUrl := r.affiliateUrl, createdAt := r.createdAt,
      updatedAt := r.updatedAt }

/-- A `userSubscription` row: `features` is a non-null TEXT column (JSON),
`hasAI` / `hasNaturalTTS` are INTEGER columns. -/
structure SubRow where
  id : String
  tier : String
  price : Rat
  features : List Nat
  booksPerMonth : Nat
  hasAI : Nat
  hasNaturalTTS : Nat
  expiresAt : Option String
  createdAt : String
deriving DecidableEq

/-- The decoded subscription record returned by `getUserSubscription`. -/
structure Subscription where
  id : String
  tier : String
  price : Rat
  features : List (List Nat)
  booksPerMonth : Nat
  hasAI : Bool
  hasNaturalTTS : Bool
  expiresAt : Option String
  createdAt : String
deriving DecidableEq

/-- Row decoding of `getUserSubscription`: `JSON.parse(result.features)` (no
falsiness guard here) and `Boolean` on the two flags. -/
def decodeSubRow (r : SubRow) : Option Subscription :=
  (parseArr r.features).map fun fs =>
    { id := r.id, tier := r.tier, price := r.price, features := fs,
      booksPerMonth := r.booksPerMonth, hasAI := r.hasAI != 0,
      hasNaturalTTS := r.hasNaturalTTS != 0, expiresAt := r.expiresAt,
      createdAt := r.createdAt }

/-- The persistent state the claims touch: the `books` and `userSubscription`
tables, each as its list of rows. The operations below are modelled after
`init()` has succeeded; the pre-`init` "Database not initialized" throw is
outside the claims under verification. -/
structure DbState where
  books : List BookRow
  subs : List SubRow
deriving DecidableEq

/-- Model of `getBookById`: `SELECT * FROM books WHERE id = ?` (first row, if any),
then row decoding. `Except.error` models a thrown `JSON.parse` exception;
`.ok none` is the explicit not-found result. -/
def getBookById (s : DbState) (bookId : String) : Except Unit (Option Book) :=
  match s.books.find? fun r => r.id == bookId with
  | none => .ok none
  | some r =>
    match decodeBookRow r with
    | some b => .ok (some b)
    | none => .error ()

/-- The caller-supplied part of `createBook` (`Omit<Book, 'id'>`). -/
structure NewBook where
  title : String
  author : Option String
  filePath : String
  coverImage : Option String
  lastPageRead : Nat
  totalPages : Nat
  categoryId : Option String
  genreTags : List (List Nat)
  fileType : String
  isCompleted : Bool
  isFavorite : Bool
  source : String
  price : Option Rat
  affiliateUrl : Option String
  createdAt : String
  updatedAt : String
deriving DecidableEq

/-- Model of `createBook`: INSERT of a new row with `genreTags` JSON-encoded
(`JSON.stringify(book.genreTags || [])`) and the flags encoded as 0/1.
The generated `Date.now().toString()` id is passed in as `genId`; inserting
a duplicate primary key raises (SQLite PRIMARY KEY constraint), modelled as
`Except.error`. -/
def createBook (s : DbState) (genId : String) (nb : NewBook) :
    Except Unit (DbState × String) :=
  if s.books.any fun r => r.id == genId then .error ()
  else
    .ok ({ s with books := s.books ++
      [{ id := genId, title := nb.title, author := nb.author,
         filePath := nb.filePath, coverImage := nb.coverImage,
         lastPageRead := nb.lastPageRead, totalPages := nb.totalPages,
         categoryId := nb.categoryId,
         genreTags := some (encodeArr nb.genreTags), fileType := nb.fileType,
         isCompleted := if nb.isCompleted then 1 else 0,
         isFavorite := if nb.isFavorite then 1 else 0, source := nb.source,
         price := nb.price, affiliateUrl := nb.affiliateUrl,
         createdAt := nb.createdAt, updatedAt := nb.updatedAt }] }, genId)

/-- Model of `toggleBookFavorite`: read the book via `getBookById`; a missing book is
a silent early return; otherwise
`UPDATE books SET isFavorite = <negation>, updatedAt = <now> WHERE id = ?`. -/
def toggleBookFavorite (s : DbState) (bookId : String) (now : String) :
    Except Unit DbState :=
  match getBookById s bookId with
  | .error _ => .error ()
  | .ok none => .ok s
  | .ok (some b) =>
    .ok { s with books := s.books.map (fun r =>
      if r.id == bookId then
        { r with isFavorite := if b.isFavorite then 0 else 1, updatedAt := now }
      else r) }

/-- Model of `markBookCompleted`:
`UPDATE books SET isCompleted = 1, categoryId = '4', updatedAt = <now>
WHERE id = ?` — no prior read, unconditional move to the "Read" category. -/
def markBookCompleted (s : DbState) (bookId : String) (now : String) : DbState :=
  { s with books := s.books.map (fun r =>
    if r.id == bookId then
      { r with isCompleted := 1, categoryId := some "4", updatedAt := now }
    else r) }

/-- Model of `getUserSubscription`: `SELECT * FROM userSubscription WHERE id = '1'`
plus row decoding; `Except.error` models a `JSON.parse` throw. -/
def getUserSubscription (s : DbState) : Except Unit (Option Subscription) :=
  match s.subs.find? fun r => r.id == "1" with
  | none => .ok none
  | some r =>
    match decodeSubRow r with
    | some u => .ok (some u)
    | none => .error ()

/-- Model of `Partial<UserSubscription>`: each field optionally present. -/
structure SubPatch where
  id : Option String
  tier : Option String
  price : Option Rat
  features : Option (List (List Nat))
  booksPerMonth : Option Nat
  hasAI : Option Bool
  hasNaturalTTS : Option Bool
  expiresAt : Option (Option String)
  createdAt : Option String
deriving DecidableEq

/-- The in-memory shallow merge `{ ...current, ...subscription }`. -/
def mergeSub (cur : Subscription) (p : SubPatch) : Subscription :=
  { id := p.id.getD cur.id, tier := p.tier.getD cur.tier,
    price := p.price.getD cur.price, features := p.features.getD cur.features,
    booksPerMonth := p.booksPerMonth.getD cur.booksPerMonth,
    hasAI := p.hasAI.getD cur.hasAI,
    hasNaturalTTS := p.hasNaturalTTS.getD cur.hasNaturalTTS,
    expiresAt := p.expiresAt.getD cur.expiresAt,
    createdAt := p.createdAt.getD cur.createdAt }

/-- Model of `updateSubscription`: read the current record (silent return when the
singleton row is absent), merge the partial over it, then
`UPDATE userSubscription SET tier, price, features, booksPerMonth, hasAI,
hasNaturalTTS, expiresAt WHERE id = '1'` — note the statement writes those
seven columns only; `id` and `createdAt` are never written back. -/
def updateSubscription (s : DbState) (p : SubPatch) : Except Unit DbState :=
  match getUserSubscription s with
  | .error _ => .error ()
  | .ok none => .ok s
  | .ok (some cur) =>
    let u := mergeSub cur p
    .ok { s with subs := s.subs.map (fun r =>
      if r.id == "1" then
        { r with
          tier := u.tier,
          price := u.price,
          features := encodeArr u.features,
          booksPerMonth := u.booksPerMonth,
          hasAI := if u.hasAI then 1 else 0,
          hasNaturalTTS := if u.hasNaturalTTS then 1 else 0,
          expiresAt := u.expiresAt }
      else r) }

/-! ## `FileService` (`src/services/fileService.ts`) -/

/-- JavaScript `\s` / whitespace, on the characters the app handles. -/
def isWs (c : Char) : Bool := c.isWhitespace

/-- Does `hay` start with `needle`? -/
def startsWithSeq : List Char → List Char → Bool
  | [], _ => true
  | _ :: _, [] => false
  | n :: ns, h :: hs => n == h && startsWithSeq ns hs

/-- JavaScript `String.prototype.includes`: `needle` occurs as a contiguous
substring of `hay`. -/
def containsSeq (needle : List Char) : List Char → Bool
  | [] => needle.isEmpty
  | h :: t => startsWithSeq needle (h :: t) || containsSeq needle t

/-- Model of `String.prototype.toLowerCase`, on the ASCII range the app's keyword
table and inputs use. -/
def jsToLower (l : List Char) : List Char := l.map Char.toLower

/-- The fixed keyword-to-genre table of `detectGenre`, in declaration
order. -/
def genreKeywords : List (String × List String) :=
  [("finance", ["finance", "money", "investment", "wealth", "trading", "economics", "business"]),
   ("business", ["business", "entrepreneur", "management", "leadership", "startup", "strategy"]),
   ("technical", ["programming", "code", "development", "software", "computer", "tech", "algorithm"]),
   ("fiction", ["novel", "story", "fiction", "tale", "adventure", "romance"]),
   ("mystery", ["mystery", "detective", "crime", "murder", "thriller"]),
   ("scifi", ["science fiction", "sci-fi", "space", "future", "robot", "alien"]),
   ("fantasy", ["fantasy", "magic", "wizard", "dragon", "kingdom"]),
   ("biography", ["biography", "memoir", "life of", "autobiography"]),
   ("history", ["history", "historical", "war", "ancient", "civilization"]),
   ("selfhelp", ["self help", "self-help", "improve", "success", "motivation", "productivity"]),
   ("health", ["health", "fitness", "diet", "nutrition", "wellness", "medical"]),
   ("philosophy", ["philosophy", "wisdom", "ethics", "meaning", "existence"])]

/-- One table entry matches when any of its keywords occurs in the lowered
title or the lowered content. -/
def genreEntryMatches (tl cl : List Char) (entry : String × List String) : Bool :=
  entry.2.any fun kw => containsSeq kw.data tl || containsSeq kw.data cl

/-- The `for`-loop of `detectGenre`: collect, in table order, every genre
whose entry matches. -/
def detectGenreAux (table : List (String × List String)) (tl cl : List Char) :
    List String :=
  table.filterMap fun entry =>
    if genreEntryMatches tl cl entry then some entry.1 else none

/-- Model of `FileService.detectGenre(title, content?)`: lower-case the title and the
(optional, defaulting to empty) content, collect matching genres, and fall
back to `['general']` when nothing matched. -/
def detectGenre (title : String) (content : Option String) : List String :=
  let titleLower := jsToLower title.data
  let contentLower := jsToLower (content.getD "").data
  let genres := detectGenreAux genreKeywords titleLower contentLower
  if genres.length > 0 then genres else ["general"]

/-- JavaScript `String.prototype.trim`. -/
def trimChars (l : List Char) : List Char :=
  ((l.dropWhile isWs).reverse.dropWhile isWs).reverse

/-- The suffix captured by `\s*(.+)$` after the separator of the filename
patterns: greedily skip whitespace; if only whitespace remains, the greedy
`\s*` backtracks one step so that `(.+)` captures the final character;
an empty remainder fails the whole match attempt. -/
def sepTail (tail : List Char) : Option (List Char) :=
  match tail.dropWhile isWs with
  | [] =>
    match tail.reverse with
    | [] => none
    | c :: _ => some [c]
  | t => some t

/-- The backtracking search of `/^(.+?)\s*-\s*(.+)$/` on a JavaScript string:
`pre` is the reversed candidate for the lazy group `(.+?)` (never empty),
`rest` the remainder. At each stop of the lazy group the engine skips
whitespace, requires `-`, and takes the first position where the tail also
matches; otherwise the lazy group grows by one character. -/
def scanHyphen (pre rest : List Char) : Option (List Char × List Char) :=
  let attempt : Option (List Char) :=
    match rest.dropWhile isWs with
    | '-' :: tail => sepTail tail
    | _ => none
  match attempt with
  | some g2 => some (pre.reverse, g2)
  | none =>
    match rest with
    | [] => none
    | c :: rest2 => scanHyphen (c :: pre) rest2

/-- The same search for `/^(.+?)\s*by\s*(.+)$/i`: after the whitespace the
engine requires the two letters `b` `y` in either case. -/
def scanBy (pre rest : List Char) : Option (List Char × List Char) :=
  let attempt : Option (List Char) :=
    match rest.dropWhile isWs with
    | b :: y :: tail =>
      if (b == 'b' || b == 'B') && (y == 'y' || y == 'Y') then sepTail tail
      else none
    | _ => none
  match attempt with
  | some g2 => some (pre.reverse, g2)
  | none =>
    match rest with
    | [] => none
    | c :: rest2 => scanBy (c :: pre) rest2

/-- Model of `FileService.extractAuthorFromFilename`: try the hyphen pattern, then
the case-insensitive `by` pattern; on a match return
`match[2]?.trim() || match[1]?.trim()` — the second capture group, falling
back to the first when the trimmed second group is empty. -/
def extractAuthorFromFilename (filename : String) : Option String :=
  let fromMatch : List Char × List Char → String := fun m =>
    let g2 := trimChars m.2
    if g2.isEmpty then String.mk (trimChars m.1) else String.mk g2
  match filename.data with
  | [] => none
  | c :: rest =>
    match scanHyphen [c] rest with
    | some m => some (fromMatch m)
    | none =>
      match scanBy [c] rest with
      | some m => some (fromMatch m)
      | none => none

/-! ## `AIService.askQuestion` (`src/services/aiService.ts`) -/

/-- The possible outcomes of the `fetch` call to the AI collaborator:
a rejected promise (network error with a message), or an HTTP response with
its `ok` flag, `statusText`, and the optional
`data.choices[0]?.message?.content`. -/
inductive FetchOutcome
  | reject (msg : String)
  | resp (ok : Bool) (statusText : String) (content : Option String)
deriving DecidableEq

/-- The `AIResponse` interface. -/
structure AIResponse where
  success : Bool
  content : String
  error : Option String
deriving DecidableEq

/-- The subscription-required error text of `askQuestion`. -/
def subscriptionRequiredMsg : String :=
  "AI features require a paid subscription. Upgrade to Basic ($5/month) or higher to access AI explanations and summaries."

/-- Model of `AIService.askQuestion`, with the network modelled as an oracle
`net : FetchOutcome` consulted only if the call reaches `fetch`. The second
component records whether `fetch` was invoked. Gate order as in the source:
the subscription check (`!subscription?.hasAI`), then the API-key check, then
the network call with its `response.ok` test and the `catch` wrapper. -/
def askQuestion (sub : Option Subscription) (apiKey : String)
    (net : FetchOutcome) : AIResponse × Bool :=
  if !(match sub with | some u => u.hasAI | none => false) then
    ({ success := false, content := "", error := some subscriptionRequiredMsg },
      false)
  else if apiKey == "" then
    ({ success := false, content := "",
       error := some "AI service not configured. Please check your API key settings." },
      false)
  else
    match net with
    | .reject msg =>
      ({ success := false, content := "", error := some msg }, true)
    | .resp ok statusText content =>
      if !ok then
        ({ success := false, content := "",
           error := some ("AI request failed: " ++ statusText) }, true)
      else
        ({ success := true, content := content.getD "No response received",
           error := none }, true)

/-! ## Reader pagination (`src/app/reader/[id].tsx`) -/

/-- JavaScript `content.split(/\s+/)` as a list of words: split at maximal
whitespace runs, keeping the empty pieces that arise at a leading or trailing
run. `inRun` says whether the scanner stands inside a whitespace run whose
piece has already been emitted; `cur` is the reversed word being
accumulated. -/
def splitWsGo (inRun : Bool) (cur : List Char) (l : List Char) :
    List (List Char) :=
  match l with
  | [] => if inRun then [[]] else [cur.reverse]
  | c :: rest =>
    if inRun then
      if isWs c then splitWsGo true [] rest
      else splitWsGo false [c] rest
    else
      if isWs c then cur.reverse :: splitWsGo true [] rest
      else splitWsGo false (c :: cur) rest

/-- The word list of a text content. -/
def jsSplitWs (content : String) : List (List Char) :=
  splitWsGo false [] content.data

/-- Model of `loadBook` for the `txt` file type:
`Math.ceil(words / 400)` pages of 400 words. -/
def totalPagesOf (content : String) : Nat :=
  ((jsSplitWs content).length + 399) / 400

/-- The word slice `words.slice(page * 400, page * 400 + 400)` that
`getPageContent` joins for display. -/
def pageWords (content : String) (page : Nat) : List (List Char) :=
  ((jsSplitWs content).drop (page * 400)).take 400

/-- Model of `goToPage`: `if (page < 0 || page >= totalPages) return;` — out-of-range
navigation leaves the current page unchanged and performs no write (second
component `false`); otherwise the page becomes current and progress is
persisted (second component `true`). -/
def goToPage (totalPages : Nat) (currentPage page : Int) : Int × Bool :=
  if page < 0 ∨ (totalPages : Int) ≤ page then (currentPage, false)
  else (page, true)

/-! ## `RecommendationService` (`src/services/recommendationService.ts`) -/

/-- An entry of the static recommendation catalog (`RecommendedBook`). -/
structure RecBook where
  id : String
  title : String
  author : String
  genre : String
  rating : Rat
  coverUrl : String
  price : Rat
  affiliateUrl : String
  description : String
  isAvailableInArchive : Bool
deriving DecidableEq

/-- The shared placeholder cover image URL of the catalog. -/
def catalogCoverUrl : String :=
  "https://images.pexels.com/photos/159711/books-bookstore-book-reading-159711.jpeg?auto=compress&cs=tinysrgb&w=300&h=400&fit=crop"

def finBook1 : RecBook :=
  { id := "fin-1", title := "Rich Dad Poor Dad", author := "Robert Kiyosaki",
    genre := "Finance", rating := 4.7, coverUrl := catalogCoverUrl,
    price := 12.99, affiliateUrl := "https://amazon.com/dp/1612680194",
    description := "A guide to financial literacy and building wealth through smart investments.",
    isAvailableInArchive := true }

def finBook2 : RecBook :=
  { id := "fin-2", title := "The Intelligent Investor", author := "Benjamin Graham",
    genre := "Finance", rating := 4.8, coverUrl := catalogCoverUrl,
    price := 15.99, affiliateUrl := "https://amazon.com/dp/0060555661",
    description := "The definitive book on value investing and market analysis.",
    isAvailableInArchive := true }

def busBook1 : RecBook :=
  { id := "bus-1", title := "Atomic Habits", author := "James Clear",
    genre := "Business", rating := 4.9, coverUrl := catalogCoverUrl,
    price := 13.99, affiliateUrl := "https://amazon.com/dp/0735211299",
    description := "An easy way to build good habits and break bad ones.",
    isAvailableInArchive := true }

def busBook2 : RecBook :=
  { id := "bus-2", title := "The Lean Startup", author := "Eric Ries",
    genre := "Business", rating := 4.5, coverUrl := catalogCoverUrl,
    price := 14.99, affiliateUrl := "https://amazon.com/dp/0307887898",
    description := "How constant innovation creates radically successful businesses.",
    isAvailableInArchive := false }

def ficBook1 : RecBook :=
  { id := "fic-1", title := "The Seven Husbands of Evelyn Hugo",
    author := "Taylor Jenkins Reid", genre := "Fiction", rating := 4.8,
    coverUrl := catalogCoverUrl, price := 11.99,
    affiliateUrl := "https://amazon.com/dp/1501161938",
    description := "A captivating novel about a reclusive Hollywood icon.",
    isAvailableInArchive := true }

def techBook1 : RecBook :=
  { id := "tech-1", title := "Clean Code", author := "Robert C. Martin",
    genre := "Technical", rating := 4.7, coverUrl := catalogCoverUrl,
    price := 24.99, affiliateUrl := "https://amazon.com/dp/0132350884",
    description := "A handbook of agile software craftsmanship.",
    isAvailableInArchive := true }

/-- The mock `bookDatabase` of `generateRecommendations`, in declaration
order: finance, business, fiction, technical. -/
def bookDatabase : List (String × List RecBook) :=
  [("finance", [finBook1, finBook2]),
   ("business", [busBook1, busBook2]),
   ("fiction", [ficBook1]),
   ("technical", [techBook1])]

/-- One step of the tally `genreCount[genre] = (genreCount[genre] || 0) + 1`
on a JavaScript object: string keys keep insertion order, so an existing key
is bumped in place and a new key is appended at the end. -/
def bumpGenre (m : List (String × Nat)) (g : String) : List (String × Nat) :=
  if m.any (fun p => p.1 == g) then
    m.map fun p => if p.1 == g then (p.1, p.2 + 1) else p
  else m ++ [(g, 1)]

/-- Model of `analyzeGenrePreferences`: tally every genre tag of every book, in scan
order; the result models `Object.entries(genreCount)` of the source, which
enumerates keys in insertion order. -/
def analyzeGenrePreferences (books : List (List String)) : List (String × Nat) :=
  books.foldl (fun m tags => tags.foldl bumpGenre m) []

/-- The JavaScript stable `sort(([,a],[,b]) => b - a)`: stable descending
sort by count, modelled by Mathlib's stable insertion sort. -/
def sortByCountDesc (l : List (String × Nat)) : List (String × Nat) :=
  List.insertionSort (fun a b => b.2 ≤ a.2) l

/-- The `topGenres` selection of `generateRecommendations`: sort descending
by count (stable) and keep the first three genre names. -/
def topGenres (freq : List (String × Nat)) : List String :=
  ((sortByCountDesc freq).take 3).map Prod.fst

/-- Model of `generateRecommendations`: concatenate the catalog entries of the top
genres (a genre missing from the catalog contributes nothing), backfill with
not-yet-included catalog entries up to six recommendations, and truncate the
result to at most eight. -/
def generateRecommendations (freq : List (String × Nat)) : List RecBook :=
  let top := topGenres freq
  let recs := top.foldl
    (fun acc g => acc ++ ((bookDatabase.find? fun e => e.1 == g).map Prod.snd).getD []) []
  let recs2 :=
    if recs.length < 6 then
      recs ++ (((bookDatabase.map Prod.snd).join).filter
        (fun b => !(recs.any fun r2 => r2.id == b.id))).take (6 - recs.length)
    else recs
  recs2.take 8

/-- Modelled from the claim's words, not from the source: top-genre selection
that breaks count ties by the fixed catalog declaration order. Used to
compare the claimed tie-breaking with the code's. -/
def claimCatalogOrder : List String := ["finance", "business", "fiction", "technical"]

/-- Modelled from the claim's words, not from the source: sort by descending
count, ties by catalog declaration order, then keep the first three names. -/
def claimTopGenres (freq : List (String × Nat)) : List String :=
  ((List.insertionSort (fun a b : String × Nat =>
      b.2 < a.2 ∨ (a.2 = b.2 ∧ claimCatalogOrder.indexOf a.1 ≤ claimCatalogOrder.indexOf b.1))
    freq).take 3).map Prod.fst

/-! ## Helper lemmas -/

/-- Lemma: `find?` commutes with mapping a function that does not change the
predicate's verdict (the SQL `UPDATE ... WHERE` pattern: every row keeps its
key). -/
theorem find?_map_of_pred_eq {α : Type} (f : α → α) (p : α → Bool)
    (hp : ∀ a, p (f a) = p a) :
    ∀ l : List α, (l.map f).find? p = (l.find? p).map f := by
  intro l
  induction l with
  | nil => rfl
  | cons a t ih =>
    by_cases h : p a = true
    · simp [List.find?, hp, h]
    · have h2 : p a = false := by simpa using h
      simp [List.find?, hp, h2, ih]

/-- Lemma: `find?` skips a prefix in which nothing satisfies the predicate. -/
theorem find?_append_of_none {α : Type} (p : α → Bool) (l1 l2 : List α)
    (h : l1.find? p = none) : (l1 ++ l2).find? p = l2.find? p := by
  induction l1 with
  | nil => rfl
  | cons a t ih =>
    rw [List.find?_eq_none] at h
    have ha : p a = false := by simpa using h a (by simp)
    have ht : t.find? p = none := List.find?_eq_none.mpr fun x hx => h x (by simp [hx])
    simp [List.find?, ha, ih ht]

/-- Boolean-as-integer round-trip: writing `b ? 1 : 0` and reading it back
with `Boolean` (`!= 0`) recovers `b`. -/
theorem decode_encode_bool (b : Bool) : ((if b then (1 : Nat) else 0) != 0) = b := by
  cases b <;> decide

/-- A table in which no entry matches contributes no genre. -/
theorem detectGenreAux_eq_nil {tl cl : List Char} :
    ∀ {table : List (String × List String)},
      (table.all fun e => !genreEntryMatches tl cl e) = true →
      detectGenreAux table tl cl = [] := by
  intro table
  induction table with
  | nil => intro _; rfl
  | cons e t ih =>
    intro h
    simp only [List.all_cons, Bool.and_eq_true] at h
    have h1 : genreEntryMatches tl cl e = false := by simpa using h.1
    show List.filterMap _ (e :: t) = []
    simp only [List.filterMap_cons, h1, Bool.false_eq_true, if_false]
    exact ih h.2

/-! ## Claims -/

/-- C1 (code bug): `extractAuthorFromFilename` evaluated at the two example
filenames of the specification. The hyphen pattern is annotated
`"Author - Title"` in the source, yet the function returns the second
capture group — the title part — so `"Tony Robbins - Awaken the Giant
Within.txt"` yields `"Awaken the Giant Within.txt"`, not `"Tony Robbins"`;
the `by` pattern returns the author but keeps the `.txt` extension. -/
theorem extractAuthor_failing_eval :
    extractAuthorFromFilename "Tony Robbins - Awaken the Giant Within.txt" =
        some "Awaken the Giant Within.txt" ∧
      extractAuthorFromFilename "Atomic Habits by James Clear.txt" =
        some "James Clear.txt" ∧
      (some "Awaken the Giant Within.txt" : Option String) ≠ some "Tony Robbins" ∧
      (some "James Clear.txt" : Option String) ≠ some "James Clear" :=
  ⟨by decide, by decide, by decide, by decide⟩

/-- C2 (counterexample): no keyword of the fixed table occurs in
`"the intelligent investor"` (the table has `"investment"`, not
`"investor"`), so `detectGenre` falls back to `["general"]`; in particular
the result does not contain `"finance"`, contrary to the claim. -/
theorem detectGenre_investor_counterexample :
    detectGenre "The Intelligent Investor" none = ["general"] ∧
      "finance" ∉ detectGenre "The Intelligent Investor" none :=
  ⟨by decide, by decide⟩

/-- C2 (amended): `detectGenre "The Intelligent Investor"` with no content
returns exactly `["general"]`, and in general any title/content pair in
which no keyword of the table occurs yields exactly `["general"]`. -/
theorem detectGenre_no_keyword_general :
    detectGenre "The Intelligent Investor" none = ["general"] ∧
      ∀ (title : String) (content : Option String),
        (genreKeywords.all fun e =>
          !genreEntryMatches (jsToLower title.data)
            (jsToLower (content.getD "").data) e) = true →
        detectGenre title content = ["general"] := by
  refine ⟨by decide, ?_⟩
  intro title content h
  rw [show detectGenre title content =
      (if (detectGenreAux genreKeywords (jsToLower title.data)
            (jsToLower (content.getD "").data)).length > 0 then
        detectGenreAux genreKeywords (jsToLower title.data)
          (jsToLower (content.getD "").data)
      else ["general"]) from rfl]
  rw [detectGenreAux_eq_nil h]
  rfl

/-- Witness for C2's amended theorem at the concrete title of the claim. -/
theorem detectGenre_no_keyword_general_witness :
    (genreKeywords.all fun e =>
      !genreEntryMatches (jsToLower ("The Intelligent Investor").data)
        (jsToLower (((none : Option String)).getD "").data) e) = true ∧
      detectGenre "The Intelligent Investor" none = ["general"] :=
  ⟨by decide,
    detectGenre_no_keyword_general.2 "The Intelligent Investor" none (by decide)⟩

/-- C6: a subscription without the AI entitlement makes `askQuestion` return
the subscription-required failure, and the network oracle is not consulted
(second component `false`), whatever the API key and whatever the network
would have answered. -/
theorem askQuestion_requires_subscription (u : Subscription) (apiKey : String)
    (net : FetchOutcome) (h : u.hasAI = false) :
    askQuestion (some u) apiKey net =
      ({ success := false, content := "", error := some subscriptionRequiredMsg },
        false) := by
  unfold askQuestion
  simp [h]

/-- The seeded free-tier subscription record, decoded. -/
def freeSubRecord : Subscription :=
  { id := "1", tier := "free", price := 0, features := [], booksPerMonth := 0,
    hasAI := false, hasNaturalTTS := false, expiresAt := none,
    createdAt := "2024-01-01T00:00:00.000Z" }

/-- Witness for C6 at the free tier, an API key, and a network oracle that
would have succeeded. -/
theorem askQuestion_requires_subscription_witness :
    freeSubRecord.hasAI = false ∧
      askQuestion (some freeSubRecord) "sk-key" (.resp true "OK" (some "answer")) =
        ({ success := false, content := "", error := some subscriptionRequiredMsg },
          false) :=
  ⟨rfl, askQuestion_requires_subscription freeSubRecord "sk-key"
    (.resp true "OK" (some "answer")) rfl⟩

/-- C10: toggling the favourite flag of an id that matches no stored book is
a silent no-op — no error is raised and the store is returned unchanged. -/
theorem toggleBookFavorite_missing_noop (s : DbState) (bookId now : String)
    (h : s.books.find? (fun r => r.id == bookId) = none) :
    toggleBookFavorite s bookId now = .ok s := by
  unfold toggleBookFavorite getBookById
  rw [h]

/-- The empty store. -/
def emptyDb : DbState := { books := [], subs := [] }

/-- Witness for C10 on the empty store. -/
theorem toggleBookFavorite_missing_noop_witness :
    (emptyDb.books.find? fun r => r.id == "42") = none ∧
      toggleBookFavorite emptyDb "42" "2024-02-02T00:00:00.000Z" = .ok emptyDb :=
  ⟨rfl, toggleBookFavorite_missing_noop emptyDb "42" "2024-02-02T00:00:00.000Z" rfl⟩

/-- C5: for text content splitting into exactly 1000 words the pager has
three pages (ceil(1000/400)), pages 0 and 1 carry 400 words each, page 2
carries 200, and navigating to page index 3 is rejected with no state change
and no progress write. -/
theorem pagination_1000_words (content : String) (cur : Int)
    (h : (jsSplitWs content).length = 1000) :
    totalPagesOf content = 3 ∧
      (pageWords content 0).length = 400 ∧
      (pageWords content 1).length = 400 ∧
      (pageWords content 2).length = 200 ∧
      goToPage (totalPagesOf content) cur 3 = (cur, false) := by
  have ht : totalPagesOf content = 3 := by
    unfold totalPagesOf
    rw [h]
  refine ⟨ht, ?_, ?_, ?_, ?_⟩
  · simp [pageWords, h]
  · simp [pageWords, h]
  · simp [pageWords, h]
  · rw [ht]
    unfold goToPage
    norm_num

/-- Builds `n` words `a`, separated by single blanks:
the concrete 1000-word content below is built from this. -/
def mkWords : Nat → List Char
  | 0 => []
  | 1 => ['a']
  | n + 2 => 'a' :: ' ' :: mkWords (n + 1)

theorem splitWsGo_true_mkWords (n : Nat) :
    splitWsGo true [] (mkWords (n + 1)) = splitWsGo false [] (mkWords (n + 1)) := by
  cases n with
  | zero => rfl
  | succ m => rfl

theorem splitWs_mkWords : ∀ n : Nat,
    splitWsGo false [] (mkWords (n + 1)) = List.replicate (n + 1) ['a'] := by
  intro n
  induction n with
  | zero => rfl
  | succ m ih =>
    show splitWsGo false [] (mkWords (m + 2)) = _
    rw [show splitWsGo false [] (mkWords (m + 2)) =
        ['a'] :: splitWsGo true [] (mkWords (m + 1)) from rfl]
    rw [splitWsGo_true_mkWords m, ih]
    rfl

/-- A concrete 1000-word text. -/
def paginationContent : String := String.mk (mkWords 1000)

/-- Witness for C5 at the concrete 1000-word content, from current page 2. -/
theorem pagination_1000_words_witness :
    (jsSplitWs paginationContent).length = 1000 ∧
      totalPagesOf paginationContent = 3 ∧
      goToPage (totalPagesOf paginationContent) 2 3 = (2, false) := by
  have h : (jsSplitWs paginationContent).length = 1000 := by
    have e : jsSplitWs paginationContent = List.replicate 1000 ['a'] :=
      splitWs_mkWords 999
    rw [e, List.length_replicate]
  obtain ⟨h1, _, _, _, h5⟩ := pagination_1000_words paginationContent 2 h
  exact ⟨h, h1, h5⟩

/-- Decoding a row after the `markBookCompleted` column writes: only the two
written columns and the timestamp change in the decoded book. -/
theorem decodeBookRow_mark (r : BookRow) (b : Book) (now : String)
    (hd : decodeBookRow r = some b) :
    decodeBookRow { r with isCompleted := 1, categoryId := some "4", updatedAt := now } =
      some { b with isCompleted := true, categoryId := some "4", updatedAt := now } := by
  unfold decodeBookRow at hd ⊢
  cases hg : decodeTags r.genreTags with
  | none => rw [hg] at hd; simp at hd
  | some gt =>
    rw [hg] at hd
    have hb := Option.some.inj hd
    subst hb
    simp [hg]

/-- Decoding a row after the `toggleBookFavorite` column writes. -/
theorem decodeBookRow_favorite (r : BookRow) (b : Book) (v : Nat) (now : String)
    (hd : decodeBookRow r = some b) :
    decodeBookRow { r with isFavorite := v, updatedAt := now } =
      some { b with isFavorite := v != 0, updatedAt := now } := by
  unfold decodeBookRow at hd ⊢
  cases hg : decodeTags r.genreTags with
  | none => rw [hg] at hd; simp at hd
  | some gt =>
    rw [hg] at hd
    have hb := Option.some.inj hd
    subst hb
    simp [hg]

/-- The row-update functions of the book UPDATE statements keep ids, so they
do not change which row a `WHERE id = ?` lookup hits. -/
theorem update_pred_eq (bookId : String) (f : BookRow → BookRow)
    (hid : ∀ r, (f r).id = r.id) :
    ∀ r : BookRow, ((fun x => x.id == bookId) (if r.id == bookId then f r else r)) =
      ((fun x => x.id == bookId) r) := by
  intro r
  by_cases h : (r.id == bookId) = true
  · simp [h, hid]
  · simp [h]

/-- Characterization: `getBookById` succeeds with a book exactly when some row is found and
decodes to it. -/
theorem getBookById_ok_iff (s : DbState) (bookId : String) (b : Book) :
    getBookById s bookId = .ok (some b) ↔
      ∃ r, s.books.find? (fun x => x.id == bookId) = some r ∧
        decodeBookRow r = some b := by
  unfold getBookById
  cases hf : s.books.find? fun x => x.id == bookId with
  | none => simp
  | some r =>
    cases hd : decodeBookRow r with
    | none => simp [hd]
    | some b0 => simp [hd, eq_comm]

/-- C4: after `markBookCompleted`, the book read back has
`isCompleted = true` and `categoryId = "4"` whatever its prior category, its
`updatedAt` is the write timestamp, and every other field is unchanged. -/
theorem markBookCompleted_spec (s : DbState) (bookId now : String) (b : Book)
    (h : getBookById s bookId = .ok (some b)) :
    ∃ b2, getBookById (markBookCompleted s bookId now) bookId = .ok (some b2) ∧
      b2.isCompleted = true ∧ b2.categoryId = some "4" ∧ b2.updatedAt = now ∧
      b2.id = b.id ∧ b2.title = b.title ∧ b2.author = b.author ∧
      b2.filePath = b.filePath ∧ b2.coverImage = b.coverImage ∧
      b2.lastPageRead = b.lastPageRead ∧ b2.totalPages = b.totalPages ∧
      b2.genreTags = b.genreTags ∧ b2.fileType = b.fileType ∧
      b2.isFavorite = b.isFavorite ∧ b2.source = b.source ∧ b2.price = b.price ∧
      b2.affiliateUrl = b.affiliateUrl ∧ b2.createdAt = b.createdAt := by
  obtain ⟨r, hf, hd⟩ := (getBookById_ok_iff s bookId b).mp h
  have hr : (r.id == bookId) = true := by simpa using List.find?_some hf
  refine ⟨{ b with isCompleted := true, categoryId := some "4", updatedAt := now },
    ?_, rfl, rfl, rfl, rfl, rfl, rfl, rfl, rfl, rfl, rfl, rfl, rfl, rfl, rfl,
    rfl, rfl, rfl⟩
  rw [getBookById_ok_iff]
  refine ⟨{ r with isCompleted := 1, categoryId := some "4", updatedAt := now },
    ?_, decodeBookRow_mark r b now hd⟩
  show (s.books.map _).find? _ = _
  rw [find?_map_of_pred_eq _ _
    (update_pred_eq bookId
      (fun x => { x with isCompleted := 1, categoryId := some "4", updatedAt := now })
      (fun _ => rfl)) s.books]
  rw [hf]
  simp [hr]
  intro hc
  exact absurd (by simpa using hr) hc

/-- A concrete one-book store used by the C4 and C8 witnesses. -/
def bookRowW : BookRow :=
  { id := "7", title := "T", author := some "A", filePath := "f.txt",
    coverImage := none, lastPageRead := 3, totalPages := 9,
    categoryId := some "2", genreTags := some (encodeArr [[102]]),
    fileType := "txt", isCompleted := 0, isFavorite := 0, source := "local",
    price := none, affiliateUrl := none, createdAt := "c0", updatedAt := "u0" }

def oneBookDb : DbState := { books := [bookRowW], subs := [] }

/-- The decoded form of `bookRowW`. -/
def bookW : Book :=
  { id := "7", title := "T", author := some "A", filePath := "f.txt",
    coverImage := none, lastPageRead := 3, totalPages := 9,
    categoryId := some "2", genreTags := [[102]], fileType := "txt",
    isCompleted := false, isFavorite := false, source := "local",
    price := none, affiliateUrl := none, createdAt := "c0", updatedAt := "u0" }

/-- Witness for C4 on the one-book store (prior category `"2"`). -/
theorem markBookCompleted_spec_witness :
    getBookById oneBookDb "7" = .ok (some bookW) ∧
      ∃ b2, getBookById (markBookCompleted oneBookDb "7" "u1") "7" = .ok (some b2) ∧
        b2.isCompleted = true ∧ b2.categoryId = some "4" ∧ b2.updatedAt = "u1" ∧
        b2.id = bookW.id ∧ b2.title = bookW.title ∧ b2.author = bookW.author ∧
        b2.filePath = bookW.filePath ∧ b2.coverImage = bookW.coverImage ∧
        b2.lastPageRead = bookW.lastPageRead ∧ b2.totalPages = bookW.totalPages ∧
        b2.genreTags = bookW.genreTags ∧ b2.fileType = bookW.fileType ∧
        b2.isFavorite = bookW.isFavorite ∧ b2.source = bookW.source ∧
        b2.price = bookW.price ∧ b2.affiliateUrl = bookW.affiliateUrl ∧
        b2.createdAt = bookW.createdAt :=
  ⟨rfl, markBookCompleted_spec oneBookDb "7" "u1" bookW rfl⟩

/-- C8: one call to `toggleBookFavorite` on a stored book flips the decoded
`isFavorite` flag to the negation of its prior value. -/
theorem toggleBookFavorite_spec (s : DbState) (bookId now : String) (b : Book)
    (h : getBookById s bookId = .ok (some b)) :
    ∃ s2 b2, toggleBookFavorite s bookId now = .ok s2 ∧
      getBookById s2 bookId = .ok (some b2) ∧ b2.isFavorite = !b.isFavorite := by
  obtain ⟨r, hf, hd⟩ := (getBookById_ok_iff s bookId b).mp h
  have hr : (r.id == bookId) = true := by simpa using List.find?_some hf
  have htog : toggleBookFavorite s bookId now =
      .ok { s with books := s.books.map (fun r2 =>
        if r2.id == bookId then
          { r2 with isFavorite := if b.isFavorite then 0 else 1, updatedAt := now }
        else r2) } := by
    unfold toggleBookFavorite
    rw [h]
  refine ⟨_, { b with
      isFavorite := (if b.isFavorite then (0 : Nat) else 1) != 0,
      updatedAt := now }, htog, ?_, ?_⟩
  · rw [getBookById_ok_iff]
    refine ⟨{ r with isFavorite := if b.isFavorite then 0 else 1, updatedAt := now },
      ?_, decodeBookRow_favorite r b (if b.isFavorite then 0 else 1) now hd⟩
    show (s.books.map _).find? _ = _
    rw [find?_map_of_pred_eq _ _
      (update_pred_eq bookId
        (fun x => { x with isFavorite := if b.isFavorite then 0 else 1, updatedAt := now })
        (fun _ => rfl)) s.books]
    rw [hf]
    simp [hr]
    intro hc
    exact absurd (by simpa using hr) hc
  · cases hb : b.isFavorite <;> simp [hb]

/-- Witness for C8 on the one-book store (`isFavorite` was `false`). -/
theorem toggleBookFavorite_spec_witness :
    getBookById oneBookDb "7" = .ok (some bookW) ∧
      ∃ s2 b2, toggleBookFavorite oneBookDb "7" "u1" = .ok s2 ∧
        getBookById s2 "7" = .ok (some b2) ∧ b2.isFavorite = !bookW.isFavorite :=
  ⟨rfl, toggleBookFavorite_spec oneBookDb "7" "u1" bookW rfl⟩

/-- Decoding the `genreTags` column written by `createBook`:
`JSON.stringify` never produces the empty text, so the falsiness guard does
not fire and `JSON.parse` recovers the array. -/
theorem decodeTags_encode (g : List (List Nat)) :
    decodeTags (some (encodeArr g)) = some g := by
  have hne : encodeArr g ≠ [] := by unfold encodeArr; simp
  simp [decodeTags, hne, parseArr_encodeArr]

/-- Decoding the row that `createBook` inserts recovers the caller's book,
genre tags included. -/
theorem decodeBookRow_create (genId : String) (nb : NewBook) :
    decodeBookRow
      { id := genId, title := nb.title, author := nb.author,
        filePath := nb.filePath, coverImage := nb.coverImage,
        lastPageRead := nb.lastPageRead, totalPages := nb.totalPages,
        categoryId := nb.categoryId,
        genreTags := some (encodeArr nb.genreTags), fileType := nb.fileType,
        isCompleted := if nb.isCompleted then 1 else 0,
        isFavorite := if nb.isFavorite then 1 else 0, source := nb.source,
        price := nb.price, affiliateUrl := nb.affiliateUrl,
        createdAt := nb.createdAt, updatedAt := nb.updatedAt } =
      some
      { id := genId, title := nb.title, author := nb.author,
        filePath := nb.filePath, coverImage := nb.coverImage,
        lastPageRead := nb.lastPageRead, totalPages := nb.totalPages,
        categoryId := nb.categoryId, genreTags := nb.genreTags,
        fileType := nb.fileType,
        isCompleted := (if nb.isCompleted then (1 : Nat) else 0) != 0,
        isFavorite := (if nb.isFavorite then (1 : Nat) else 0) != 0,
        source := nb.source, price := nb.price, affiliateUrl := nb.affiliateUrl,
        createdAt := nb.createdAt, updatedAt := nb.updatedAt } := by
  unfold decodeBookRow
  simp [decodeTags_encode]

/-- C3: the `genreTags` round-trip through the store. A successful
`createBook` followed by `getBookById` on the new id returns the very genre
tag sequence that was stored — for every sequence, the empty one included —
and a NULL `genreTags` column decodes to the empty sequence. -/
theorem createBook_genreTags_roundtrip :
    (∀ (s : DbState) (genId : String) (nb : NewBook) (s2 : DbState) (bid : String),
        createBook s genId nb = .ok (s2, bid) →
        ∃ b, getBookById s2 bid = .ok (some b) ∧ b.genreTags = nb.genreTags) ∧
      decodeTags none = some [] := by
  refine ⟨?_, rfl⟩
  intro s genId nb s2 bid h
  unfold createBook at h
  by_cases hany : (s.books.any fun r => r.id == genId) = true
  · rw [if_pos hany] at h
    exact absurd h (by simp)
  · rw [if_neg hany] at h
    simp only [Except.ok.injEq, Prod.mk.injEq] at h
    obtain ⟨hs2, hbid⟩ := h
    subst hs2
    subst hbid
    have hnone : s.books.find? (fun x => x.id == genId) = none := by
      rw [List.find?_eq_none]
      intro x hx hpx
      exact hany (List.any_eq_true.mpr ⟨x, hx, hpx⟩)
    refine ⟨_, (getBookById_ok_iff _ _ _).mpr
      ⟨_, ?_, decodeBookRow_create genId nb⟩, rfl⟩
    show (s.books ++ [_]).find? _ = _
    rw [find?_append_of_none _ _ _ hnone]
    simp [List.find?]

/-- The caller input used by the C3 witness: two genre tags, one containing
a quote character that the JSON codec must escape, and one empty string. -/
def nbW : NewBook :=
  { title := "T2", author := none, filePath := "g.txt", coverImage := none,
    lastPageRead := 0, totalPages := 0, categoryId := none,
    genreTags := [[34, 97], []], fileType := "txt", isCompleted := false,
    isFavorite := false, source := "local", price := none, affiliateUrl := none,
    createdAt := "c2", updatedAt := "u2" }

/-- The row `createBook emptyDb "100" nbW` inserts. -/
def rowAfterCreateW : BookRow :=
  { id := "100", title := "T2", author := none, filePath := "g.txt",
    coverImage := none, lastPageRead := 0, totalPages := 0, categoryId := none,
    genreTags := some (encodeArr [[34, 97], []]), fileType := "txt",
    isCompleted := 0, isFavorite := 0, source := "local", price := none,
    affiliateUrl := none, createdAt := "c2", updatedAt := "u2" }

/-- The store state `createBook emptyDb "100" nbW` produces. -/
def dbAfterCreateW : DbState := { books := [rowAfterCreateW], subs := [] }

/-- Witness for C3 on the empty store. -/
theorem createBook_genreTags_roundtrip_witness :
    createBook emptyDb "100" nbW = .ok (dbAfterCreateW, "100") ∧
      ∃ b, getBookById dbAfterCreateW "100" = .ok (some b) ∧
        b.genreTags = nbW.genreTags :=
  ⟨rfl, createBook_genreTags_roundtrip.1 emptyDb "100" nbW dbAfterCreateW "100" rfl⟩

/-- Decoding the subscription row written by `updateSubscription`: the seven
written columns carry the merged record; `id` and `createdAt` still carry the
row's old values. -/
theorem decodeSubRow_update (r : SubRow) (u : Subscription) :
    decodeSubRow { r with
      tier := u.tier,
      price := u.price,
      features := encodeArr u.features,
      booksPerMonth := u.booksPerMonth,
      hasAI := if u.hasAI then 1 else 0,
      hasNaturalTTS := if u.hasNaturalTTS then 1 else 0,
      expiresAt := u.expiresAt } =
      some
      { id := r.id, tier := u.tier, price := u.price,
        features := u.features, booksPerMonth := u.booksPerMonth,
        hasAI := u.hasAI, hasNaturalTTS := u.hasNaturalTTS,
        expiresAt := u.expiresAt, createdAt := r.createdAt } := by
  unfold decodeSubRow
  simp [parseArr_encodeArr, decode_encode_bool]

/-- The decoded subscription keeps the row's `id` and `createdAt`. -/
theorem decodeSubRow_fields (r : SubRow) (u : Subscription)
    (h : decodeSubRow r = some u) : u.id = r.id ∧ u.createdAt = r.createdAt := by
  unfold decodeSubRow at h
  cases hp : parseArr r.features with
  | none => rw [hp] at h; simp at h
  | some fs =>
    rw [hp] at h
    have hb := Option.some.inj h
    subst hb
    exact ⟨rfl, rfl⟩

/-- Characterization: `getUserSubscription` succeeds with a record exactly when the singleton
row is found and decodes to it. -/
theorem getUserSubscription_ok_iff (s : DbState) (u : Subscription) :
    getUserSubscription s = .ok (some u) ↔
      ∃ r, s.subs.find? (fun x => x.id == "1") = some r ∧
        decodeSubRow r = some u := by
  unfold getUserSubscription
  cases hf : s.subs.find? fun x => x.id == "1" with
  | none => simp
  | some r =>
    cases hd : decodeSubRow r with
    | none => simp [hd]
    | some u0 => simp [hd, eq_comm]

/-- The subscription UPDATE keeps row ids. -/
theorem update_sub_pred_eq (f : SubRow → SubRow) (hid : ∀ r, (f r).id = r.id) :
    ∀ r : SubRow, ((fun x => x.id == "1") (if r.id == "1" then f r else r)) =
      ((fun x => x.id == "1") r) := by
  intro r
  by_cases h : (r.id == "1") = true
  · simp [h, hid]
  · simp [h]

/-- C9 (amended): `updateSubscription` merges the partial over the current
record and writes the merge back, but only through the seven columns of its
UPDATE statement: each of `tier`, `price`, `features`, `booksPerMonth`,
`hasAI`, `hasNaturalTTS`, `expiresAt` takes the partial's value when present
and keeps its prior value when absent, while `createdAt` and `id` always
keep their stored values, even when present in the partial. -/
theorem updateSubscription_spec (s : DbState) (p : SubPatch) (cur : Subscription)
    (h : getUserSubscription s = .ok (some cur)) :
    ∃ s2 cur2, updateSubscription s p = .ok s2 ∧
      getUserSubscription s2 = .ok (some cur2) ∧
      cur2.tier = p.tier.getD cur.tier ∧
      cur2.price = p.price.getD cur.price ∧
      cur2.features = p.features.getD cur.features ∧
      cur2.booksPerMonth = p.booksPerMonth.getD cur.booksPerMonth ∧
      cur2.hasAI = p.hasAI.getD cur.hasAI ∧
      cur2.hasNaturalTTS = p.hasNaturalTTS.getD cur.hasNaturalTTS ∧
      cur2.expiresAt = p.expiresAt.getD cur.expiresAt ∧
      cur2.createdAt = cur.createdAt ∧ cur2.id = cur.id := by
  obtain ⟨r, hf, hd⟩ := (getUserSubscription_ok_iff s cur).mp h
  have hr : (r.id == "1") = true := by simpa using List.find?_some hf
  obtain ⟨hid, hca⟩ := decodeSubRow_fields r cur hd
  have hupd : updateSubscription s p = .ok { s with subs := s.subs.map (fun r2 =>
      if r2.id == "1" then
        { r2 with
          tier := (mergeSub cur p).tier,
          price := (mergeSub cur p).price,
          features := encodeArr (mergeSub cur p).features,
          booksPerMonth := (mergeSub cur p).booksPerMonth,
          hasAI := if (mergeSub cur p).hasAI then 1 else 0,
          hasNaturalTTS := if (mergeSub cur p).hasNaturalTTS then 1 else 0,
          expiresAt := (mergeSub cur p).expiresAt }
      else r2) } := by
    unfold updateSubscription
    rw [h]
  refine ⟨_,
    { id := r.id, tier := (mergeSub cur p).tier,
      price := (mergeSub cur p).price, features := (mergeSub cur p).features,
      booksPerMonth := (mergeSub cur p).booksPerMonth,
      hasAI := (mergeSub cur p).hasAI,
      hasNaturalTTS := (mergeSub cur p).hasNaturalTTS,
      expiresAt := (mergeSub cur p).expiresAt, createdAt := r.createdAt },
    hupd, ?_, rfl, rfl, rfl, rfl, rfl, rfl, rfl, hca.symm, hid.symm⟩
  rw [getUserSubscription_ok_iff]
  refine ⟨
    { r with
      tier := (mergeSub cur p).tier,
      price := (mergeSub cur p).price,
      features := encodeArr (mergeSub cur p).features,
      booksPerMonth := (mergeSub cur p).booksPerMonth,
      hasAI := if (mergeSub cur p).hasAI then 1 else 0,
      hasNaturalTTS := if (mergeSub cur p).hasNaturalTTS then 1 else 0,
      expiresAt := (mergeSub cur p).expiresAt }, ?_, decodeSubRow_update r (mergeSub cur p)⟩
  have hpred := update_sub_pred_eq
    (fun r2 =>
      { r2 with
        tier := (mergeSub cur p).tier,
        price := (mergeSub cur p).price,
        features := encodeArr (mergeSub cur p).features,
        booksPerMonth := (mergeSub cur p).booksPerMonth,
        hasAI := if (mergeSub cur p).hasAI then 1 else 0,
        hasNaturalTTS := if (mergeSub cur p).hasNaturalTTS then 1 else 0,
        expiresAt := (mergeSub cur p).expiresAt })
    (fun _ => rfl)
  show (s.subs.map _).find? _ = _
  rw [find?_map_of_pred_eq _ _ hpred s.subs]
  rw [hf]
  simp [hr]
  intro hc
  exact absurd (by simpa using hr) hc

/-- The singleton subscription row of the C9 inputs (free tier, one
feature string `"f"`). -/
def subRowW : SubRow :=
  { id := "1", tier := "free", price := 0, features := encodeArr [[102]],
    booksPerMonth := 0, hasAI := 0, hasNaturalTTS := 0, expiresAt := none,
    createdAt := "2024-01-01" }

def subDbW : DbState := { books := [], subs := [subRowW] }

/-- The decoded form of `subRowW`. -/
def curW : Subscription :=
  { id := "1", tier := "free", price := 0, features := [[102]],
    booksPerMonth := 0, hasAI := false, hasNaturalTTS := false,
    expiresAt := none, createdAt := "2024-01-01" }

/-- A partial update that only carries `createdAt`. -/
def patchCreatedAtW : SubPatch :=
  { id := none, tier := none, price := none, features := none,
    booksPerMonth := none, hasAI := none, hasNaturalTTS := none,
    expiresAt := none, createdAt := some "2030-01-01" }

/-- C9 (counterexample): `createdAt` is present in the partial with value
`"2030-01-01"`, yet the call leaves the store byte-for-byte unchanged — the
UPDATE statement does not write `createdAt` — so the record read back still
carries `"2024-01-01"`, refuting "every field present in the partial takes
the partial's value". -/
theorem updateSubscription_createdAt_counterexample :
    patchCreatedAtW.createdAt = some "2030-01-01" ∧
      updateSubscription subDbW patchCreatedAtW = .ok subDbW ∧
      getUserSubscription subDbW = .ok (some curW) ∧
      curW.createdAt = "2024-01-01" ∧
      ("2024-01-01" : String) ≠ "2030-01-01" :=
  ⟨rfl, rfl, rfl, rfl, by decide⟩

/-- The basic-tier upgrade partial used by the C9 witness. -/
def patchW : SubPatch :=
  { id := none, tier := some "basic", price := some 5, features := none,
    booksPerMonth := some 1, hasAI := some true, hasNaturalTTS := some true,
    expiresAt := some (some "2024-02-01"), createdAt := none }

/-- Witness for C9's amended theorem at a concrete upgrade. -/
theorem updateSubscription_spec_witness :
    getUserSubscription subDbW = .ok (some curW) ∧
      ∃ s2 cur2, updateSubscription subDbW patchW = .ok s2 ∧
        getUserSubscription s2 = .ok (some cur2) ∧
        cur2.tier = patchW.tier.getD curW.tier ∧
        cur2.price = patchW.price.getD curW.price ∧
        cur2.features = patchW.features.getD curW.features ∧
        cur2.booksPerMonth = patchW.booksPerMonth.getD curW.booksPerMonth ∧
        cur2.hasAI = patchW.hasAI.getD curW.hasAI ∧
        cur2.hasNaturalTTS = patchW.hasNaturalTTS.getD curW.hasNaturalTTS ∧
        cur2.expiresAt = patchW.expiresAt.getD curW.expiresAt ∧
        cur2.createdAt = curW.createdAt ∧ cur2.id = curW.id :=
  ⟨rfl, updateSubscription_spec subDbW patchW curW rfl⟩

/-- C7 (counterexample): with one fiction book and one finance book the two
genres tie at count 1. The code's stable sort keeps the tally's insertion
order (first appearance while scanning the library), so `fiction` is
selected ahead of `finance` and the fiction catalog entry leads the result —
whereas tie-breaking by the fixed catalog declaration order, as the claim
states, would put `finance` first. -/
theorem recommendation_tiebreak_counterexample :
    topGenres (analyzeGenrePreferences [["fiction"], ["finance"]]) =
        ["fiction", "finance"] ∧
      claimTopGenres (analyzeGenrePreferences [["fiction"], ["finance"]]) =
        ["finance", "fiction"] ∧
      generateRecommendations (analyzeGenrePreferences [["fiction"], ["finance"]]) =
        [ficBook1, finBook1, finBook2, busBook1, busBook2, techBook1] ∧
      (["fiction", "finance"] : List String) ≠ ["finance", "fiction"] :=
  ⟨by decide, by decide, rfl, by decide⟩

/-- C7 (amended): the aggregation selects the top 3 genres by descending
occurrence count with a stable sort whose ties keep the tally's
first-appearance order (not the catalog declaration order); the result is
always at most 8 entries long; and in the claim's scenario — finance in 5
books, fiction in 1 — the finance catalog entries appear ahead of the
fiction entry. -/
theorem recommendation_spec :
    (∀ freq : List (String × Nat), (generateRecommendations freq).length ≤ 8) ∧
      (∀ freq : List (String × Nat),
        List.Sorted (fun a b => b.2 ≤ a.2) (sortByCountDesc freq)) ∧
      topGenres (analyzeGenrePreferences [["technical"], ["business"]]) =
        ["technical", "business"] ∧
      generateRecommendations (analyzeGenrePreferences
          [["finance"], ["finance"], ["finance"], ["finance"], ["finance"],
            ["fiction"]]) =
        [finBook1, finBook2, ficBook1, busBook1, busBook2, techBook1] := by
  refine ⟨?_, ?_, by decide, rfl⟩
  · intro freq
    exact List.length_take_le _ _
  · intro freq
    haveI : IsTotal (String × Nat) (fun a b => b.2 ≤ a.2) :=
      ⟨fun a b => le_total b.2 a.2⟩
    haveI : IsTrans (String × Nat) (fun a b => b.2 ≤ a.2) :=
      ⟨fun a b c hab hbc => le_trans hbc hab⟩
    exact List.sorted_insertionSort _ _

end PhewRead
